import Mathlib

/-!
Shallow embedding of `src/api/managed-records.js` (the `retrieve` function of
the adhoc-fetch repository) together with theorems checking the repository's
specification against it.

The embedding follows the source line by line:
* records are JSON objects with `id`, `color`, `disposition`;
* `isPrimaryColor` tests membership of the color in `["red", "blue", "yellow"]`;
* the request builder computes `limit + 1 = 11`, `offset = (page - 1) * limit || 0`
  and appends one `color[]` query pair per element of `colors`;
* the response shaper computes `previousPage`, `nextPage` (on the untrimmed
  length), then `data.splice(limit, 1)` (drop the element at index 10), then
  derives `ids`, `open`, `closedPrimaryCount`;
* the whole promise chain ends in `.catch(err => console.log(err))`, so any
  error is logged and the promise fulfills with `undefined` (modelled `none`).

The query-string collaborator (urijs `addSearch`) is external to the
repository; following the spec's interface description it encodes a repeated
key as one `key=value` pair per array element, in order, and an empty array
contributes no pair.
-/

/-- A record object returned by the `/records` endpoint:
`{id, color, disposition}` (colors and dispositions are plain strings in JS). -/
structure RecordObject where
  id : Int
  color : String
  disposition : String
deriving Repr, DecidableEq

/-- A record extended with the derived `isPrimary` flag, as produced by
`{...record, isPrimary: isPrimaryColor(record.color)}`. -/
structure ClassifiedRecord where
  id : Int
  color : String
  disposition : String
  isPrimary : Bool
deriving Repr, DecidableEq

/-- `isPrimaryColor(color)`: `["red", "blue", "yellow"].includes(color)`. -/
def isPrimaryColor (color : String) : Bool :=
  ["red", "blue", "yellow"].contains color

/-- The spread `{...record, isPrimary: isPrimaryColor(record.color)}`. -/
def classifyRecord (r : RecordObject) : ClassifiedRecord :=
  { id := r.id, color := r.color, disposition := r.disposition,
    isPrimary := isPrimaryColor r.color }

/-- The payload object built by `retrieve`'s final `.then`. -/
structure RetrievePayload where
  ids : List Int
  «open» : List ClassifiedRecord
  closedPrimaryCount : Nat
  previousPage : Option Int
  nextPage : Option Int
deriving Repr, DecidableEq

/-- The caller's options object.  `none` in a field means the key is absent
(`"page" in options` / `"colors" in options` is false). -/
structure RetrieveOptions where
  page : Option Int
  colors : Option (List String)

/-- `const page = "page" in options ? options.page : 1` (with `options = {}`
when the argument is `undefined`). -/
def pageOf (options : Option RetrieveOptions) : Int :=
  match options with
  | none => 1
  | some o => o.page.getD 1

/-- `const colors = "colors" in options ? options.colors : []`. -/
def colorsOf (options : Option RetrieveOptions) : List String :=
  match options with
  | none => []
  | some o => o.colors.getD []

/-- `const offset = (page - 1) * limit || 0` with `limit = 10`: the JS `|| 0`
replaces the value by `0` exactly when `(page - 1) * 10` is falsy (i.e. `0`). -/
def retrieveOffset (options : Option RetrieveOptions) : Int :=
  let limit : Int := 10
  let raw := (pageOf options - 1) * limit
  if raw = 0 then 0 else raw

/-- The query pairs added to the request URI, in order:
`addSearch("limit", limit + 1)`, `addSearch("offset", offset)`, then — since a
JS array is always truthy, `if (colors)` is taken — `addSearch("color[]", colors)`,
which (per the external query-string collaborator) appends one pair per element. -/
def retrieveQuery (options : Option RetrieveOptions) : List (String × String) :=
  let limit : Int := 10
  ("limit", toString (limit + 1)) ::
    ("offset", toString (retrieveOffset options)) ::
      (colorsOf options).map (fun c => ("color[]", c))

/-- `data.splice(limit, 1)` with `limit = 10`: remove (at most) one element
starting at index 10, leaving `take 10 ++ drop 11`. -/
def spliceTrim (data : List RecordObject) : List RecordObject :=
  data.take 10 ++ data.drop 11

/-- The response-shaping `.then(data => ...)`: `previousPage`, `nextPage`
(computed on the untrimmed length), trim, classify, derive the payload. -/
def shapeResponse (page : Int) (data : List RecordObject) : RetrievePayload :=
  let previousPage : Option Int := if page = 1 then none else some (page - 1)
  let nextPage : Option Int := if data.length > 10 then some (page + 1) else none
  let trimmed := spliceTrim data
  let recordsWithPrimary := trimmed.map classifyRecord
  { ids := trimmed.map (fun r => r.id),
    «open» := recordsWithPrimary.filter (fun r => r.disposition == "open"),
    closedPrimaryCount :=
      (recordsWithPrimary.filter
        (fun r => r.disposition == "closed" && r.isPrimary)).length,
    previousPage := previousPage,
    nextPage := nextPage }

/-- What the transport (and the rest of the promise chain up to the final
`.catch`) can do: deliver a successful response whose body decodes to an array
of records (`res.ok` true), report a non-success HTTP status (`res.ok` false),
or reject / throw anywhere in the chain (network failure, JSON parse error, an
exception while shaping a malformed body, ...), abstracted as `exn`. -/
inductive TransportOutcome where
  | ok (data : List RecordObject)
  | httpError (status : Nat)
  | exn (msg : String)

/-- The settled state of a JS promise. -/
inductive PromiseResult (α : Type) where
  | fulfilled (v : α)
  | rejected (msg : String)
deriving Repr, DecidableEq

/-- Whether a settled promise is rejected. -/
def PromiseResult.isRejected {α : Type} : PromiseResult α → Bool
  | .fulfilled _ => false
  | .rejected _ => true

/-- The chain `fetch(URL).then(res => res.ok ? res.json() : throw ...).then(shape)`
before the final `.catch`: on a non-success status it throws
`Error("Fetching /records failed with: " + status)`. -/
def chainBeforeCatch (page : Int) (outcome : TransportOutcome) :
    Except String RetrievePayload :=
  match outcome with
  | .ok data => .ok (shapeResponse page data)
  | .httpError status =>
      .error ("Fetching /records failed with: " ++ toString status)
  | .exn msg => .error msg

/-- The promise returned by `retrieve`: the final
`.catch(err => console.log(err))` turns any error into a fulfillment with the
result of `console.log`, i.e. `undefined` (modelled as `none`). -/
def retrieveResult (options : Option RetrieveOptions)
    (outcome : TransportOutcome) : PromiseResult (Option RetrievePayload) :=
  match chainBeforeCatch (pageOf options) outcome with
  | .ok payload => .fulfilled (some payload)
  | .error _ => .fulfilled none

/-! ### Helper lemmas shared by several claims -/

theorem shapeResponse_previousPage (page : Int) (data : List RecordObject) :
    (shapeResponse page data).previousPage =
      if page = 1 then none else some (page - 1) := rfl

theorem shapeResponse_nextPage (page : Int) (data : List RecordObject) :
    (shapeResponse page data).nextPage =
      if data.length > 10 then some (page + 1) else none := rfl

theorem shapeResponse_ids (page : Int) (data : List RecordObject) :
    (shapeResponse page data).ids = (spliceTrim data).map (fun r => r.id) := rfl

theorem shapeResponse_open_eq (page : Int) (data : List RecordObject) :
    (shapeResponse page data).«open» =
      ((spliceTrim data).map classifyRecord).filter
        (fun r => r.disposition == "open") := rfl

theorem shapeResponse_closedPrimaryCount (page : Int) (data : List RecordObject) :
    (shapeResponse page data).closedPrimaryCount =
      (((spliceTrim data).map classifyRecord).filter
        (fun r => r.disposition == "closed" && r.isPrimary)).length := rfl

theorem isPrimaryColor_iff (c : String) :
    isPrimaryColor c = true ↔ c = "red" ∨ c = "blue" ∨ c = "yellow" := by
  simp [isPrimaryColor]

theorem spliceTrim_length (data : List RecordObject) :
    (spliceTrim data).length = min 10 data.length + (data.length - 11) := by
  simp [spliceTrim]

theorem spliceTrim_append_sentinel (d : List RecordObject) (r : RecordObject)
    (h : d.length = 10) : spliceTrim (d ++ [r]) = spliceTrim d := by
  unfold spliceTrim
  rw [List.take_append_of_le_length (by omega),
    List.drop_eq_nil_of_le (by simp; omega),
    List.drop_eq_nil_of_le (by omega)]

/-! ### Claim theorems -/

/-- C2: for every raw response array and requested page, `nextPage` equals
`page + 1` if the untrimmed array length exceeds 10 and is `none` otherwise;
the check uses the length before trimming, so for a raw length of exactly 11
the payload still reports a next page even though `ids` has only 10 entries. -/
theorem nextPage_from_untrimmed_length (page : Int) (data : List RecordObject) :
    ((shapeResponse page data).nextPage =
      if 10 < data.length then some (page + 1) else none) ∧
    (data.length = 11 →
      (shapeResponse page data).ids.length = 10 ∧
      (shapeResponse page data).nextPage = some (page + 1)) := by
  constructor
  · rw [shapeResponse_nextPage]
  · intro h11
    constructor
    · rw [shapeResponse_ids, List.length_map, spliceTrim_length]
      omega
    · rw [shapeResponse_nextPage, if_pos (by omega)]

/-- Witness for C2 at a concrete 11-element response. -/
theorem nextPage_from_untrimmed_length_witness :
    (List.replicate 11 (RecordObject.mk 1 "red" "open")).length = 11 ∧
    (shapeResponse 1 (List.replicate 11 (RecordObject.mk 1 "red" "open"))).ids.length = 10 ∧
    (shapeResponse 1 (List.replicate 11 (RecordObject.mk 1 "red" "open"))).nextPage = some 2 := by
  have h :=
    (nextPage_from_untrimmed_length 1
      (List.replicate 11 (RecordObject.mk 1 "red" "open"))).2 (by simp)
  exact ⟨by simp, h.1, h.2⟩

/-- C5: `previousPage` is `page - 1` for every requested `page ≥ 2`, absent for
`page = 1`, and depends only on the requested page, not on the response data. -/
theorem previousPage_from_page_only (page : Int) (data : List RecordObject) :
    (2 ≤ page → (shapeResponse page data).previousPage = some (page - 1)) ∧
    (page = 1 → (shapeResponse page data).previousPage = none) ∧
    (∀ data2 : List RecordObject,
      (shapeResponse page data).previousPage =
        (shapeResponse page data2).previousPage) := by
  refine ⟨fun h => ?_, fun h => ?_, fun data2 => ?_⟩
  · rw [shapeResponse_previousPage, if_neg (by omega)]
  · rw [shapeResponse_previousPage, if_pos h]
  · rw [shapeResponse_previousPage, shapeResponse_previousPage]

/-- Witness for C5 at page 3 (data of length 2) and page 1. -/
theorem previousPage_from_page_only_witness :
    (2 ≤ (3 : Int) ∧
      (shapeResponse 3 [RecordObject.mk 1 "red" "open"]).previousPage = some 2) ∧
    ((1 : Int) = 1 ∧
      (shapeResponse 1 [RecordObject.mk 1 "red" "open"]).previousPage = none) := by
  refine ⟨⟨by norm_num, ?_⟩, ⟨rfl, ?_⟩⟩
  · exact (previousPage_from_page_only 3 [RecordObject.mk 1 "red" "open"]).1 (by norm_num)
  · exact (previousPage_from_page_only 1 [RecordObject.mk 1 "red" "open"]).2.1 rfl

/-- C6 counterexample: for `options = {page: 0}` the computed offset is `-10`,
not `0` — the JS `|| 0` fallback does not floor a falsy page at offset 0. -/
theorem offset_page_zero_counterexample :
    retrieveOffset (some (RetrieveOptions.mk (some 0) none)) = -10 ∧
    retrieveOffset (some (RetrieveOptions.mk (some 0) none)) ≠ 0 := by
  constructor
  · rfl
  · intro h
    simp [retrieveOffset, pageOf] at h

/-- C6 (amended): the offset is `(page - 1) * 10` for every supplied integer
page (the `|| 0` fallback only rewrites an already-zero product, so a falsy
page like 0 yields offset -10, not 0); when the page key is absent or the
options object is omitted, the page defaults to 1 and the offset is 0. -/
theorem offset_formula :
    (∀ (p : Int) (c : Option (List String)),
      retrieveOffset (some (RetrieveOptions.mk (some p) c)) = (p - 1) * 10) ∧
    (∀ c : Option (List String),
      retrieveOffset (some (RetrieveOptions.mk none c)) = 0) ∧
    retrieveOffset none = 0 := by
  refine ⟨fun p c => ?_, fun c => rfl, rfl⟩
  simp only [retrieveOffset, pageOf, Option.getD_some]
  split
  · omega
  · rfl

/-- C9: `closedPrimaryCount` is the number of trimmed records whose disposition
is "closed" and whose color is primary (red, blue or yellow). -/
theorem closedPrimaryCount_counts_closed_primary (page : Int)
    (data : List RecordObject) :
    (shapeResponse page data).closedPrimaryCount =
      ((spliceTrim data).filter
        (fun r => r.disposition == "closed" && isPrimaryColor r.color)).length := by
  rw [shapeResponse_closedPrimaryCount, List.filter_map, List.length_map]
  rfl

/-- C3: for responses of length at most 11 the payload's `ids` has at most 10
entries, and appending an 11th (sentinel) record to a full 10-record page
changes none of `ids`, `open` or `closedPrimaryCount` — the sentinel never
leaks into any derived field. -/
theorem ids_bounded_and_sentinel_hidden :
    (∀ (page : Int) (data : List RecordObject), data.length ≤ 11 →
      (shapeResponse page data).ids.length ≤ 10) ∧
    (∀ (page : Int) (d : List RecordObject) (r : RecordObject), d.length = 10 →
      (shapeResponse page (d ++ [r])).ids = (shapeResponse page d).ids ∧
      (shapeResponse page (d ++ [r])).«open» = (shapeResponse page d).«open» ∧
      (shapeResponse page (d ++ [r])).closedPrimaryCount =
        (shapeResponse page d).closedPrimaryCount) := by
  constructor
  · intro page data h
    rw [shapeResponse_ids, List.length_map, spliceTrim_length]
    omega
  · intro page d r h
    refine ⟨?_, ?_, ?_⟩
    · rw [shapeResponse_ids, shapeResponse_ids, spliceTrim_append_sentinel d r h]
    · rw [shapeResponse_open_eq, shapeResponse_open_eq,
        spliceTrim_append_sentinel d r h]
    · rw [shapeResponse_closedPrimaryCount, shapeResponse_closedPrimaryCount,
        spliceTrim_append_sentinel d r h]

/-- Witness for C3: an 11-element response, and a full page of 10 records plus
a sentinel. -/
theorem ids_bounded_and_sentinel_hidden_witness :
    ((List.replicate 11 (RecordObject.mk 1 "red" "open")).length ≤ 11 ∧
      (shapeResponse 1 (List.replicate 11 (RecordObject.mk 1 "red" "open"))).ids.length ≤ 10) ∧
    ((List.replicate 10 (RecordObject.mk 1 "red" "open")).length = 10 ∧
      (shapeResponse 1 (List.replicate 10 (RecordObject.mk 1 "red" "open") ++
          [RecordObject.mk 99 "blue" "closed"])).ids =
        (shapeResponse 1 (List.replicate 10 (RecordObject.mk 1 "red" "open"))).ids) := by
  refine ⟨⟨by simp, ?_⟩, ⟨by simp, ?_⟩⟩
  · exact ids_bounded_and_sentinel_hidden.1 1
      (List.replicate 11 (RecordObject.mk 1 "red" "open")) (by simp)
  · exact (ids_bounded_and_sentinel_hidden.2 1
      (List.replicate 10 (RecordObject.mk 1 "red" "open"))
      (RecordObject.mk 99 "blue" "closed") (by simp)).1

/-- C10: the trim is `data.splice(10, 1)` — it removes exactly the element at
index 10 when the length exceeds 10 and nothing otherwise; consequently for raw
lengths ≥ 12 the payload's `ids` keeps `length - 1 > 10` entries and the
records beyond index 10 survive into `ids` (shifted down one position). -/
theorem trim_removes_only_index_ten :
    (∀ data : List RecordObject,
      spliceTrim data = data.eraseIdx 10 ∧
      (data.length ≤ 10 → spliceTrim data = data) ∧
      (10 < data.length → (spliceTrim data).length = data.length - 1)) ∧
    (∀ (page : Int) (data : List RecordObject), 12 ≤ data.length →
      10 < (shapeResponse page data).ids.length ∧
      (shapeResponse page data).ids.length = data.length - 1 ∧
      (∀ i, 11 ≤ i → i < data.length →
        (shapeResponse page data).ids[i - 1]? = data[i]?.map (fun r => r.id))) := by
  constructor
  · intro data
    refine ⟨?_, fun h => ?_, fun h => ?_⟩
    · rw [spliceTrim, List.eraseIdx_eq_take_drop_succ]
    · rw [spliceTrim, List.take_of_length_le h,
        List.drop_eq_nil_of_le (by omega), List.append_nil]
    · rw [spliceTrim_length]; omega
  · intro page data h
    refine ⟨?_, ?_, ?_⟩
    · rw [shapeResponse_ids, List.length_map, spliceTrim_length]; omega
    · rw [shapeResponse_ids, List.length_map, spliceTrim_length]; omega
    · intro i hi hlt
      rw [shapeResponse_ids, List.getElem?_map, spliceTrim,
        List.getElem?_append_right (by rw [List.length_take]; omega),
        List.getElem?_drop, List.length_take]
      have harg : 11 + (i - 1 - min 10 data.length) = i := by omega
      rw [harg]

/-- Witness for C10: a 12-element response keeps 11 ids and the record at raw
index 11 appears at position 10 of `ids`. -/
theorem trim_removes_only_index_ten_witness :
    ((List.replicate 3 (RecordObject.mk 7 "green" "closed")).length ≤ 10 ∧
      spliceTrim (List.replicate 3 (RecordObject.mk 7 "green" "closed")) =
        List.replicate 3 (RecordObject.mk 7 "green" "closed")) ∧
    (10 < (List.replicate 12 (RecordObject.mk 7 "green" "closed")).length ∧
      (spliceTrim (List.replicate 12 (RecordObject.mk 7 "green" "closed"))).length = 11) ∧
    (12 ≤ (List.replicate 12 (RecordObject.mk 7 "green" "closed")).length ∧
      (shapeResponse 1 (List.replicate 12 (RecordObject.mk 7 "green" "closed"))).ids.length = 11 ∧
      (shapeResponse 1 (List.replicate 12 (RecordObject.mk 7 "green" "closed"))).ids[10]? =
        (List.replicate 12 (RecordObject.mk 7 "green" "closed"))[11]?.map (fun r => r.id)) := by
  refine ⟨⟨by simp, (trim_removes_only_index_ten.1 _).2.1 (by simp)⟩,
    ⟨by simp, ?_⟩, by simp, ?_, ?_⟩
  · have h := (trim_removes_only_index_ten.1
      (List.replicate 12 (RecordObject.mk 7 "green" "closed"))).2.2 (by simp)
    simpa using h
  · have h := (trim_removes_only_index_ten.2 1
      (List.replicate 12 (RecordObject.mk 7 "green" "closed")) (by simp)).2.1
    simpa using h
  · have h := (trim_removes_only_index_ten.2 1
      (List.replicate 12 (RecordObject.mk 7 "green" "closed")) (by simp)).2.2
      11 (by omega) (by simp)
    simpa using h

theorem filter_colorKey (s : String) (cs : List String) :
    (("limit", "11") :: ("offset", s) ::
        cs.map (fun c => ("color[]", c))).filter
      (fun kv => kv.1 == "color[]") = cs.map (fun c => ("color[]", c)) := by
  simp [List.filter_map]
  congr 1
  exact List.filter_eq_self.mpr (fun a _ => rfl)

/-- C7: the produced query is exactly `limit=11`, then the computed offset,
then one `color[]` pair per element of `colors` in the order supplied; with
empty or omitted `colors` the query holds no `color[]` pair. -/
theorem query_shape (options : Option RetrieveOptions) :
    retrieveQuery options =
      ("limit", "11") :: ("offset", toString (retrieveOffset options)) ::
        (colorsOf options).map (fun c => ("color[]", c)) ∧
    ("limit", "11") ∈ retrieveQuery options ∧
    ("offset", toString (retrieveOffset options)) ∈ retrieveQuery options ∧
    (retrieveQuery options).filter (fun kv => kv.1 == "color[]") =
      (colorsOf options).map (fun c => ("color[]", c)) := by
  refine ⟨rfl, List.mem_cons_self _ _,
    List.mem_cons_of_mem _ (List.mem_cons_self _ _), ?_⟩
  exact filter_colorKey _ _

/-- C8: `open` is exactly the trimmed records with disposition "open", in
original order, each classified; every record in `open` carries
`isPrimary = true` iff its color is red, blue or yellow (so false for brown
and green). -/
theorem open_records_classified (page : Int) (data : List RecordObject) :
    (shapeResponse page data).«open» =
      ((spliceTrim data).filter
        (fun r => r.disposition == "open")).map classifyRecord ∧
    (∀ r : ClassifiedRecord, r ∈ (shapeResponse page data).«open» →
      r.disposition = "open" ∧
      (r.isPrimary = true ↔
        (r.color = "red" ∨ r.color = "blue" ∨ r.color = "yellow"))) := by
  have heq : (shapeResponse page data).«open» =
      ((spliceTrim data).filter
        (fun r => r.disposition == "open")).map classifyRecord := by
    rw [shapeResponse_open_eq, List.filter_map]
    rfl
  refine ⟨heq, fun r hr => ?_⟩
  rw [heq] at hr
  simp only [List.mem_map, List.mem_filter] at hr
  obtain ⟨r0, ⟨_, hdisp⟩, rfl⟩ := hr
  refine ⟨?_, ?_⟩
  · simpa [classifyRecord] using hdisp
  · simpa [classifyRecord] using isPrimaryColor_iff r0.color

/-- Witness for C8: a page with a red open, brown open and blue closed record;
the red open record appears classified as primary. -/
theorem open_records_classified_witness :
    (shapeResponse 1 [RecordObject.mk 1 "red" "open",
        RecordObject.mk 2 "brown" "open",
        RecordObject.mk 3 "blue" "closed"]).«open» =
      [ClassifiedRecord.mk 1 "red" "open" true,
        ClassifiedRecord.mk 2 "brown" "open" false] ∧
    ClassifiedRecord.mk 1 "red" "open" true ∈
      (shapeResponse 1 [RecordObject.mk 1 "red" "open",
        RecordObject.mk 2 "brown" "open",
        RecordObject.mk 3 "blue" "closed"]).«open» ∧
    ((ClassifiedRecord.mk 1 "red" "open" true).disposition = "open" ∧
      ((ClassifiedRecord.mk 1 "red" "open" true).isPrimary = true ↔
        ((ClassifiedRecord.mk 1 "red" "open" true).color = "red" ∨
          (ClassifiedRecord.mk 1 "red" "open" true).color = "blue" ∨
          (ClassifiedRecord.mk 1 "red" "open" true).color = "yellow"))) := by
  refine ⟨by decide, by decide, ?_⟩
  exact (open_records_classified 1 [RecordObject.mk 1 "red" "open",
    RecordObject.mk 2 "brown" "open",
    RecordObject.mk 3 "blue" "closed"]).2
    (ClassifiedRecord.mk 1 "red" "open" true) (by decide)

/-- C4: the promise returned by `retrieve` always fulfills and never rejects:
a successful transport yields the shaped payload, while a non-success status
or any exception in the chain is caught, logged, and turned into a fulfillment
with `undefined`. -/
theorem retrieve_promise_always_fulfills (options : Option RetrieveOptions)
    (outcome : TransportOutcome) :
    (retrieveResult options outcome).isRejected = false ∧
    (∀ d : List RecordObject, retrieveResult options (.ok d) =
      .fulfilled (some (shapeResponse (pageOf options) d))) ∧
    (∀ s : Nat, retrieveResult options (.httpError s) = .fulfilled none) ∧
    (∀ m : String, retrieveResult options (.exn m) = .fulfilled none) := by
  refine ⟨?_, fun d => rfl, fun s => rfl, fun m => rfl⟩
  cases outcome <;> rfl

/-- C1 counterexample: with the transport reporting status 500, the promise
returned by `retrieve` is not rejected — it fulfills with `undefined`, so the
caller never sees the error. -/
theorem transport_failure_not_rejected :
    (retrieveResult none (.httpError 500)).isRejected = false ∧
    retrieveResult none (.httpError 500) = .fulfilled none :=
  ⟨rfl, rfl⟩

/-- C1 (amended): on a non-success status `s` an error carrying `s` is thrown
inside the chain and no payload is produced, but the final catch logs it and
the returned promise fulfills with `undefined` instead of rejecting. -/
theorem transport_failure_swallowed (options : Option RetrieveOptions)
    (status : Nat) :
    chainBeforeCatch (pageOf options) (.httpError status) =
      .error ("Fetching /records failed with: " ++ toString status) ∧
    retrieveResult options (.httpError status) = .fulfilled none :=
  ⟨rfl, rfl⟩
